import Mathlib

/-!
Shallow embedding of the stock-movement and inter-location shipment core of
the `explotacion` inventory backend (`backend/app/DAO/producto_localidad_DAO.py`,
`backend/app/DAO/envio_DAO.py`, `backend/app/services/movimiento_service.py`,
`backend/app/services/envio_service.py`).

Conventions of the embedding:
* Python `int` is `Int`; SQL `INT` columns are `Int`.
* Database tables are association lists of row structures inside a `DB` state.
* A Python function that may `raise` is embedded as returning
  `Except String α × DB`: the `DB` component is the state after whatever
  writes happened before the raise (each DAO call commits on its own; there is
  no surrounding transaction in the source), and `.error msg` carries the
  exception message exactly as formatted by the source.
* `SELECT ... WHERE key = x ... fetchone()` is `List.find?` on the table;
  `UPDATE ... WHERE cond` rewrites every row satisfying `cond`.
* The database driver module `app/db/conexion_DB.py` is not part of the
  sources; its cursor semantics are modelled from the spec: `cursor.rowcount`
  after an `UPDATE` counts the rows *matched* by the `WHERE` clause, so that
  `setExact` "overwrites (or creates) the record unconditionally" as the spec
  describes.
-/

namespace Explotacion

/-- Shipment states: the `estado` enum of the `envios` table. -/
inductive Estado where
  | enviado
  | en_transito
  | recibido
  | cancelado
deriving DecidableEq, Repr

/-- Movement kinds: the `tipo` enum of the `movimientos` table. -/
inductive Tipo where
  | entrada
  | salida
  | transferencia
  | ajuste
deriving DecidableEq, Repr

/-- A row of `productos_localidad` (the Stock Ledger). -/
structure StockRow where
  producto : Int
  localidad : Int
  lugar : Int
  cantidad : Int
deriving DecidableEq, Repr

/-- A row of `lugares` (only the columns the core reads). -/
structure LugarRow where
  id : Int
  localidad : Int
  nombre : String
deriving DecidableEq, Repr

/-- A row of `productos` (only the columns the core reads). -/
structure ProductoRow where
  id : Int
  nombre : String
deriving DecidableEq, Repr

/-- A row of `localidades` (only the columns the core reads). -/
structure LocalidadRow where
  id : Int
  nombre : String
deriving DecidableEq, Repr

/-- A row of `envios`. -/
structure Envio where
  id : Int
  producto : Int
  cantidad : Int
  usuario_envia : Int
  usuario_recibe : Option Int
  localidad_origen : Int
  localidad_destino : Int
  lugar_origen : Int
  lugar_destino : Option Int
  estado : Estado
  motivo : String
  observaciones_envio : String
  observaciones_recepcion : String
  observaciones_cancelacion : String
deriving DecidableEq, Repr

/-- A row of `movimientos`. -/
structure Movimiento where
  id : Int
  tipo : Tipo
  cantidad : Int
  producto : Int
  usuario : Int
  localidad : Int
  lugar_origen : Option Int
  lugar_destino : Option Int
  motivo : String
  observaciones : String
deriving DecidableEq, Repr

/-- A row of `auditoria` (structured columns; the JSON snapshot columns are
kept as printed by the services in `descripcion`-level granularity and the
untyped dict payloads are not modelled). -/
structure Audit where
  entidad : String
  id_entidad : Int
  accion : String
  descripcion : String
  id_usuario : Int
deriving DecidableEq, Repr

/-- The database state: one field per table the core touches, plus the
`AUTO_INCREMENT` counters of `envios` and `movimientos`. -/
structure DB where
  productos : List ProductoRow
  localidades : List LocalidadRow
  lugares : List LugarRow
  usuarios : List Int
  stock : List StockRow
  envios : List Envio
  movimientos : List Movimiento
  auditoria : List Audit
  next_envio_id : Int
  next_movimiento_id : Int
deriving Repr

/-! ## DAO layer: `producto_localidad_DAO.py` (the Stock Ledger) -/

/-- Row predicate for the `WHERE id_producto = %s AND id_lugar = %s` clause. -/
def stockKey (producto lugar : Int) (r : StockRow) : Bool :=
  r.producto == producto && r.lugar == lugar

/-- Embeds `UPDATE productos_localidad SET cantidad = <g cantidad>
WHERE id_producto = %s AND id_lugar = %s`: rewrite the quantity of every row
matching the key. -/
def updateCantidad (producto lugar : Int) (g : Int → Int)
    (stock : List StockRow) : List StockRow :=
  stock.map fun r =>
    if stockKey producto lugar r then { r with cantidad := g r.cantidad } else r

/-- Embeds `SELECT cantidad FROM productos_localidad WHERE id_producto = %s AND
id_lugar = %s`, with absence meaning zero. -/
def stock_lookup (stock : List StockRow) (producto lugar : Int) : Int :=
  match stock.find? (stockKey producto lugar) with
  | some r => r.cantidad
  | none => 0

/-- Embeds `ProductoLocalidadDAO.get_stock`: quantity at (product, place), `0` when
no row exists. -/
def get_stock (db : DB) (producto lugar : Int) : Int :=
  stock_lookup db.stock producto lugar

/-- Embeds `ProductoLocalidadDAO.sumar_stock`: credit. If a row exists, increment it;
otherwise resolve the place's owning location from `lugares` (raising when the
place is missing) and insert a fresh row. -/
def sumar_stock (db : DB) (producto lugar cantidad : Int) :
    Except String Bool × DB :=
  match db.stock.find? (stockKey producto lugar) with
  | some _ =>
    (.ok true,
     { db with stock := updateCantidad producto lugar (· + cantidad) db.stock })
  | none =>
    match db.lugares.find? (fun l => l.id == lugar) with
    | none => (.error ("Lugar " ++ toString lugar ++ " no encontrado"), db)
    | some lug =>
      (.ok true,
       { db with stock := db.stock ++
           [{ producto := producto, localidad := lug.localidad,
              lugar := lugar, cantidad := cantidad }] })

/-- Embeds `ProductoLocalidadDAO.restar_stock`: debit. Reads the current quantity
first and raises the insufficient-stock exception when it is below the
requested amount; otherwise decrements the row. The returned boolean is
`cursor.rowcount > 0` of the `UPDATE`. -/
def restar_stock (db : DB) (producto lugar cantidad : Int) :
    Except String Bool × DB :=
  let stock_actual := get_stock db producto lugar
  if stock_actual < cantidad then
    (.error ("Stock insuficiente. Disponible: " ++ toString stock_actual ++
             ", Requerido: " ++ toString cantidad), db)
  else
    ((.ok ((db.stock.find? (stockKey producto lugar)).isSome)),
     { db with stock := updateCantidad producto lugar (· - cantidad) db.stock })

/-- Embeds `ProductoLocalidadDAO.transferir_stock`: validate stock at the origin,
then debit the origin and credit the destination. -/
def transferir_stock (db : DB) (producto lugar_origen lugar_destino cantidad : Int) :
    Except String Bool × DB :=
  let stock_origen := get_stock db producto lugar_origen
  if stock_origen < cantidad then
    (.error ("Stock insuficiente en origen. Disponible: " ++ toString stock_origen), db)
  else
    match restar_stock db producto lugar_origen cantidad with
    | (.error e, db1) => (.error e, db1)
    | (.ok _, db1) =>
      match sumar_stock db1 producto lugar_destino cantidad with
      | (.error e, db2) => (.error e, db2)
      | (.ok _, db2) => (.ok true, db2)

/-- Embeds `ProductoLocalidadDAO.ajustar_stock`: set the quantity to an exact value.
`UPDATE` first; when no row was matched, resolve the owning location and
`INSERT` (the source indexes `lugar['id_localidad']` without a `None` check,
so a missing place surfaces as a raised `TypeError`). Returns `True`. -/
def ajustar_stock (db : DB) (producto lugar cantidad_nueva : Int)
    (_motivo : String := "") : Except String Bool × DB :=
  if (db.stock.find? (stockKey producto lugar)).isSome then
    (.ok true,
     { db with stock := updateCantidad producto lugar (fun _ => cantidad_nueva) db.stock })
  else
    match db.lugares.find? (fun l => l.id == lugar) with
    | none => (.error "TypeError: NoneType object is not subscriptable", db)
    | some lug =>
      (.ok true,
       { db with stock := db.stock ++
           [{ producto := producto, localidad := lug.localidad,
              lugar := lugar, cantidad := cantidad_nueva }] })

/-! ## DAO layer: catalog lookups -/

/-- Embeds `ProductoDAO.get_by_id` (the `LEFT JOIN categorias` cannot drop the row). -/
def producto_get_by_id (db : DB) (producto_id : Int) : Option ProductoRow :=
  db.productos.find? (fun p => p.id == producto_id)

/-- Embeds `LocalidadDAO.get_by_id`. -/
def localidad_get_by_id (db : DB) (localidad_id : Int) : Option LocalidadRow :=
  db.localidades.find? (fun l => l.id == localidad_id)

/-- Embeds `LugarDAO.get_by_id`: inner `JOIN localidades`, so the result also carries
the owning location's name and is `none` when that location row is missing. -/
def lugar_get_by_id (db : DB) (lugar_id : Int) : Option (LugarRow × String) :=
  match db.lugares.find? (fun l => l.id == lugar_id) with
  | none => none
  | some lug =>
    match db.localidades.find? (fun loc => loc.id == lug.localidad) with
    | none => none
    | some loc => some (lug, loc.nombre)

/-! ## DAO layer: `envio_DAO.py` and `movimiento_DAO.py` -/

/-- Embeds `EnvioDAO.create`: `INSERT INTO envios ... VALUES (..., 'enviado', ...)`;
returns `cursor.lastrowid`. -/
def envio_create (db : DB) (producto cantidad usuario_envia : Int)
    (localidad_origen localidad_destino lugar_origen : Int)
    (lugar_destino : Option Int) (motivo observaciones_envio : String) :
    Int × DB :=
  let e : Envio :=
    { id := db.next_envio_id, producto := producto, cantidad := cantidad,
      usuario_envia := usuario_envia, usuario_recibe := none,
      localidad_origen := localidad_origen,
      localidad_destino := localidad_destino,
      lugar_origen := lugar_origen, lugar_destino := lugar_destino,
      estado := .enviado, motivo := motivo,
      observaciones_envio := observaciones_envio,
      observaciones_recepcion := "", observaciones_cancelacion := "" }
  (db.next_envio_id,
   { db with envios := db.envios ++ [e],
             next_envio_id := db.next_envio_id + 1 })

/-- Embeds `EnvioDAO.get_by_id`: the query inner-joins `productos`, `usuarios ue`,
both `localidades` and `lugares lug_origen`, so the row is visible only when
those referenced rows exist; the joined product name is returned with it. -/
def envio_get_by_id (db : DB) (envio_id : Int) : Option (Envio × String) :=
  match db.envios.find? (fun e => e.id == envio_id) with
  | none => none
  | some e =>
    match producto_get_by_id db e.producto with
    | none => none
    | some p =>
      if db.usuarios.contains e.usuario_envia &&
         (db.localidades.find? (fun l => l.id == e.localidad_origen)).isSome &&
         (db.localidades.find? (fun l => l.id == e.localidad_destino)).isSome &&
         (db.lugares.find? (fun l => l.id == e.lugar_origen)).isSome then
        some (e, p.nombre)
      else
        none

/-- Embeds `EnvioDAO.marcar_recibido`: `UPDATE envios SET estado='recibido', ...
WHERE id_envio = %s AND estado IN ('enviado','en_transito')`; the boolean is
`cursor.rowcount > 0`. -/
def marcar_recibido (db : DB) (envio_id usuario_recibe_id lugar_destino_id : Int)
    (observaciones : String := "") : Bool × DB :=
  let hit := fun (e : Envio) =>
    e.id == envio_id && (e.estado == .enviado || e.estado == .en_transito)
  (db.envios.any hit,
   { db with envios := db.envios.map fun e =>
       if hit e then
         { e with estado := .recibido,
                  usuario_recibe := some usuario_recibe_id,
                  lugar_destino := some lugar_destino_id,
                  observaciones_recepcion := observaciones }
       else e })

/-- Embeds `EnvioDAO.cancelar`: `UPDATE envios SET estado='cancelado', ...
WHERE id_envio = %s AND estado != 'recibido'`; the boolean is
`cursor.rowcount > 0`. -/
def envio_cancelar (db : DB) (envio_id : Int) (observaciones : String := "") :
    Bool × DB :=
  let hit := fun (e : Envio) =>
    e.id == envio_id && !(e.estado == .recibido)
  (db.envios.any hit,
   { db with envios := db.envios.map fun e =>
       if hit e then
         { e with estado := .cancelado,
                  observaciones_cancelacion := observaciones }
       else e })

/-- Embeds `MovimientoDAO.create`: insert the row and return `cursor.lastrowid`. -/
def movimiento_create (db : DB) (tipo : Tipo) (cantidad producto usuario localidad : Int)
    (lugar_origen lugar_destino : Option Int) (motivo observaciones : String) :
    Int × DB :=
  let m : Movimiento :=
    { id := db.next_movimiento_id, tipo := tipo, cantidad := cantidad,
      producto := producto, usuario := usuario, localidad := localidad,
      lugar_origen := lugar_origen, lugar_destino := lugar_destino,
      motivo := motivo, observaciones := observaciones }
  (db.next_movimiento_id,
   { db with movimientos := db.movimientos ++ [m],
             next_movimiento_id := db.next_movimiento_id + 1 })

/-- Embeds `AuditoriaDAO.create`: append a row to `auditoria`. -/
def auditoria_create (db : DB) (a : Audit) : DB :=
  { db with auditoria := db.auditoria ++ [a] }

/-! ## Service layer: `movimiento_service.py` -/

/-- The untyped `data` dict passed to the movement services: a key that may be
absent is an `Option` field. -/
structure MovimientoData where
  id_producto : Option Int := none
  cantidad : Option Int := none
  lugar_origen : Option Int := none
  lugar_destino : Option Int := none
  lugar_id : Option Int := none
  cantidad_nueva : Option Int := none
  motivo : Option String := none
  observaciones : Option String := none

/-- Python truthiness of `data[key]` for an integer-valued key:
false when the key is absent or its value is `0`. -/
def truthyInt (v : Option Int) : Bool :=
  match v with
  | none => false
  | some x => !(x == 0)

/-- Python's `+d` format used for the adjustment delta. -/
def fmtSigned (d : Int) : String :=
  if 0 ≤ d then "+" ++ toString d else toString d

/-- Embeds `MovimientoService._validate_movimiento_data`. -/
def validate_movimiento_data (data : MovimientoData) (tipo : Tipo) :
    Except String Unit :=
  if !truthyInt data.id_producto then .error "Producto es requerido"
  else
    match data.cantidad with
    | none => .error "Cantidad debe ser mayor a 0"
    | some c =>
      if c ≤ 0 then .error "Cantidad debe ser mayor a 0"
      else
        match tipo with
        | .entrada =>
          if data.lugar_destino.isNone then
            .error "Lugar de destino es requerido para entradas"
          else .ok ()
        | .salida =>
          if data.lugar_origen.isNone then
            .error "Lugar de origen es requerido para salidas"
          else .ok ()
        | .transferencia =>
          if data.lugar_origen.isNone || data.lugar_destino.isNone then
            .error "Lugar de origen y destino son requeridos para transferencias"
          else .ok ()
        | .ajuste => .ok ()

/-- Embeds `MovimientoService.crear_entrada`: validate, check product and
destination place, insert the `entrada` movement, credit the ledger and write
the audit record. -/
def crear_entrada (db : DB) (data : MovimientoData) (usuario_id localidad_id : Int) :
    Except String Int × DB :=
  match validate_movimiento_data data .entrada with
  | .error e => (.error e, db)
  | .ok () =>
  match data.id_producto with
  | none => (.error "KeyError: id_producto", db)
  | some id_producto =>
  match producto_get_by_id db id_producto with
  | none => (.error "Producto no encontrado", db)
  | some producto =>
  match data.lugar_destino with
  | none => (.error "KeyError: lugar_destino", db)
  | some lugar_destino_id =>
  match lugar_get_by_id db lugar_destino_id with
  | none => (.error "Lugar de destino no encontrado", db)
  | some _ =>
  match data.cantidad with
  | none => (.error "KeyError: cantidad", db)
  | some cantidad =>
    let (movimiento_id, db1) :=
      movimiento_create db .entrada cantidad id_producto usuario_id localidad_id
        none (some lugar_destino_id) (data.motivo.getD "") (data.observaciones.getD "")
    match sumar_stock db1 id_producto lugar_destino_id cantidad with
    | (.error e, db2) => (.error e, db2)
    | (.ok _, db2) =>
      let db3 := auditoria_create db2
        { entidad := "Movimiento", id_entidad := movimiento_id, accion := "create",
          descripcion := "Entrada de " ++ toString cantidad ++ " unidades de " ++
            producto.nombre,
          id_usuario := usuario_id }
      (.ok movimiento_id, db3)

/-- Embeds `MovimientoService.crear_salida`: validate, check product and origin
place, check available stock, insert the `salida` movement, debit the ledger
and write the audit record. -/
def crear_salida (db : DB) (data : MovimientoData) (usuario_id localidad_id : Int) :
    Except String Int × DB :=
  match validate_movimiento_data data .salida with
  | .error e => (.error e, db)
  | .ok () =>
  match data.id_producto with
  | none => (.error "KeyError: id_producto", db)
  | some id_producto =>
  match producto_get_by_id db id_producto with
  | none => (.error "Producto no encontrado", db)
  | some producto =>
  match data.lugar_origen with
  | none => (.error "KeyError: lugar_origen", db)
  | some lugar_origen_id =>
  match lugar_get_by_id db lugar_origen_id with
  | none => (.error "Lugar de origen no encontrado", db)
  | some _ =>
  match data.cantidad with
  | none => (.error "KeyError: cantidad", db)
  | some cantidad =>
    let stock_disponible := get_stock db id_producto lugar_origen_id
    if stock_disponible < cantidad then
      (.error ("Stock insuficiente. Disponible: " ++ toString stock_disponible ++
               ", Solicitado: " ++ toString cantidad), db)
    else
      let (movimiento_id, db1) :=
        movimiento_create db .salida cantidad id_producto usuario_id localidad_id
          (some lugar_origen_id) none (data.motivo.getD "") (data.observaciones.getD "")
      match restar_stock db1 id_producto lugar_origen_id cantidad with
      | (.error e, db2) => (.error e, db2)
      | (.ok _, db2) =>
        let db3 := auditoria_create db2
          { entidad := "Movimiento", id_entidad := movimiento_id, accion := "create",
            descripcion := "Salida de " ++ toString cantidad ++ " unidades de " ++
              producto.nombre,
            id_usuario := usuario_id }
        (.ok movimiento_id, db3)

/-- Embeds `MovimientoService.crear_transferencia`: validate, check product and both
places, reject origin = destination, check origin stock, insert the
`transferencia` movement, transfer and write the audit record. -/
def crear_transferencia (db : DB) (data : MovimientoData) (usuario_id localidad_id : Int) :
    Except String Int × DB :=
  match validate_movimiento_data data .transferencia with
  | .error e => (.error e, db)
  | .ok () =>
  match data.id_producto with
  | none => (.error "KeyError: id_producto", db)
  | some id_producto =>
  match producto_get_by_id db id_producto with
  | none => (.error "Producto no encontrado", db)
  | some producto =>
  match data.lugar_origen with
  | none => (.error "KeyError: lugar_origen", db)
  | some lugar_origen_id =>
  match data.lugar_destino with
  | none => (.error "KeyError: lugar_destino", db)
  | some lugar_destino_id =>
  match lugar_get_by_id db lugar_origen_id with
  | none => (.error "Lugar de origen no encontrado", db)
  | some lugar_origen =>
  match lugar_get_by_id db lugar_destino_id with
  | none => (.error "Lugar de destino no encontrado", db)
  | some lugar_destino =>
  if lugar_origen_id == lugar_destino_id then
    (.error "El lugar origen y destino no pueden ser el mismo", db)
  else
  match data.cantidad with
  | none => (.error "KeyError: cantidad", db)
  | some cantidad =>
    let stock_disponible := get_stock db id_producto lugar_origen_id
    if stock_disponible < cantidad then
      (.error ("Stock insuficiente en origen. Disponible: " ++
               toString stock_disponible), db)
    else
      let (movimiento_id, db1) :=
        movimiento_create db .transferencia cantidad id_producto usuario_id localidad_id
          (some lugar_origen_id) (some lugar_destino_id)
          (data.motivo.getD "") (data.observaciones.getD "")
      match transferir_stock db1 id_producto lugar_origen_id lugar_destino_id cantidad with
      | (.error e, db2) => (.error e, db2)
      | (.ok _, db2) =>
        let db3 := auditoria_create db2
          { entidad := "Movimiento", id_entidad := movimiento_id, accion := "create",
            descripcion := "Transferencia de " ++ toString cantidad ++ " unidades de " ++
              producto.nombre ++ " de " ++ lugar_origen.1.nombre ++ " a " ++
              lugar_destino.1.nombre,
            id_usuario := usuario_id }
        (.ok movimiento_id, db3)

/-- Embeds `MovimientoService.crear_ajuste`: reject a missing or negative new
quantity, check product and place, read the current stock, compute the delta,
insert the `ajuste` movement (absolute quantity, the place as origin when the
delta is negative and as destination when it is positive), set the ledger to
the exact value and write the audit record. -/
def crear_ajuste (db : DB) (data : MovimientoData) (usuario_id localidad_id : Int) :
    Except String Int × DB :=
  match data.cantidad_nueva with
  | none => (.error "Cantidad nueva inválida", db)
  | some cantidad_nueva =>
  if cantidad_nueva < 0 then (.error "Cantidad nueva inválida", db)
  else
  match data.id_producto with
  | none => (.error "KeyError: id_producto", db)
  | some id_producto =>
  match data.lugar_id with
  | none => (.error "KeyError: lugar_id", db)
  | some lugar_id =>
  match producto_get_by_id db id_producto with
  | none => (.error "Producto no encontrado", db)
  | some producto =>
  match lugar_get_by_id db lugar_id with
  | none => (.error "Lugar no encontrado", db)
  | some lugar =>
    let stock_actual := get_stock db id_producto lugar_id
    let diferencia := cantidad_nueva - stock_actual
    let (movimiento_id, db1) :=
      movimiento_create db .ajuste diferencia.natAbs id_producto usuario_id localidad_id
        (if diferencia < 0 then some lugar_id else none)
        (if diferencia > 0 then some lugar_id else none)
        (data.motivo.getD "Ajuste de inventario")
        ("Stock anterior: " ++ toString stock_actual ++
         ", Stock nuevo: " ++ toString cantidad_nueva ++
         ", Diferencia: " ++ fmtSigned diferencia ++ ". " ++
         data.observaciones.getD "")
    match ajustar_stock db1 id_producto lugar_id cantidad_nueva (data.motivo.getD "") with
    | (.error e, db2) => (.error e, db2)
    | (.ok _, db2) =>
      let db3 := auditoria_create db2
        { entidad := "Movimiento", id_entidad := movimiento_id, accion := "ajuste",
          descripcion := "Ajuste de inventario de " ++ producto.nombre ++ " en " ++
            lugar.1.nombre ++ ": " ++ toString stock_actual ++ " → " ++
            toString cantidad_nueva ++ " (" ++ fmtSigned diferencia ++ ")",
          id_usuario := usuario_id }
      (.ok movimiento_id, db3)

/-! ## Service layer: `envio_service.py` -/

/-- The untyped `data` dict passed to `crear_envio`. -/
structure EnvioData where
  id_producto : Option Int := none
  cantidad : Option Int := none
  localidad_destino : Option Int := none
  lugar_origen : Option Int := none
  lugar_destino : Option Int := none
  motivo : Option String := none
  observaciones_envio : Option String := none

/-- Embeds `EnvioService._validate_envio_data`: the four required keys must be
present and truthy (checked in order), then the quantity must be positive. -/
def validate_envio_data (data : EnvioData) : Except String Unit :=
  if !truthyInt data.id_producto then .error "Campo requerido: id_producto"
  else if !truthyInt data.cantidad then .error "Campo requerido: cantidad"
  else if !truthyInt data.localidad_destino then
    .error "Campo requerido: localidad_destino"
  else if !truthyInt data.lugar_origen then .error "Campo requerido: lugar_origen"
  else
    match data.cantidad with
    | none => .error "KeyError: cantidad"
    | some c =>
      if c ≤ 0 then .error "La cantidad debe ser mayor a 0"
      else .ok ()

/-- Embeds `EnvioService.crear_envio`: validate, check product / origin place /
destination location, reject a shipment to the origin's own location, check
origin stock, insert the shipment in state `enviado`, debit the origin place
and write the audit record. -/
def crear_envio (db : DB) (data : EnvioData) (usuario_envia_id : Int) :
    Except String Int × DB :=
  match validate_envio_data data with
  | .error e => (.error e, db)
  | .ok () =>
  match data.id_producto with
  | none => (.error "KeyError: id_producto", db)
  | some id_producto =>
  match producto_get_by_id db id_producto with
  | none => (.error "Producto no encontrado", db)
  | some producto =>
  match data.lugar_origen with
  | none => (.error "KeyError: lugar_origen", db)
  | some lugar_origen_id =>
  match lugar_get_by_id db lugar_origen_id with
  | none => (.error "Lugar de origen no encontrado", db)
  | some lugar_origen =>
    let localidad_origen := lugar_origen.1.localidad
    match data.localidad_destino with
    | none => (.error "KeyError: localidad_destino", db)
    | some localidad_destino_id =>
    match localidad_get_by_id db localidad_destino_id with
    | none => (.error "Localidad de destino no encontrada", db)
    | some localidad_destino =>
    if localidad_origen == localidad_destino_id then
      (.error "No se puede enviar a la misma localidad. Use transferencias.", db)
    else
    match data.cantidad with
    | none => (.error "KeyError: cantidad", db)
    | some cantidad =>
      let stock_disponible := get_stock db id_producto lugar_origen_id
      if stock_disponible < cantidad then
        (.error ("Stock insuficiente. Disponible: " ++ toString stock_disponible ++
                 ", Solicitado: " ++ toString cantidad), db)
      else
        let (envio_id, db1) :=
          envio_create db id_producto cantidad usuario_envia_id
            localidad_origen localidad_destino_id lugar_origen_id
            data.lugar_destino (data.motivo.getD "") (data.observaciones_envio.getD "")
        match restar_stock db1 id_producto lugar_origen_id cantidad with
        | (.error e, db2) => (.error e, db2)
        | (.ok _, db2) =>
          let db3 := auditoria_create db2
            { entidad := "Envio", id_entidad := envio_id, accion := "envio",
              descripcion := "Envío de " ++ toString cantidad ++ " unidades de " ++
                producto.nombre ++ " desde " ++ lugar_origen.1.nombre ++ " (" ++
                lugar_origen.2 ++ ") hacia " ++ localidad_destino.nombre,
              id_usuario := usuario_envia_id }
          (.ok envio_id, db3)

/-- Embeds `EnvioService.recibir_envio`: look the shipment up, reject terminal
states, check that the receiving place exists and belongs to the shipment's
destination location, mark the row received and — when the `UPDATE` matched —
credit the destination place and write the audit record. -/
def recibir_envio (db : DB) (envio_id usuario_recibe_id lugar_destino_id : Int)
    (observaciones : String := "") : Except String Bool × DB :=
  match envio_get_by_id db envio_id with
  | none => (.error "Envío no encontrado", db)
  | some envio =>
  if envio.1.estado == .recibido then (.error "El envío ya fue recibido", db)
  else if envio.1.estado == .cancelado then (.error "El envío está cancelado", db)
  else
  match lugar_get_by_id db lugar_destino_id with
  | none => (.error "Lugar de destino no encontrado", db)
  | some lugar_destino =>
  if !(lugar_destino.1.localidad == envio.1.localidad_destino) then
    (.error "El lugar no pertenece a la localidad de destino", db)
  else
    let (success, db1) :=
      marcar_recibido db envio_id usuario_recibe_id lugar_destino_id observaciones
    if success then
      match sumar_stock db1 envio.1.producto lugar_destino_id envio.1.cantidad with
      | (.error e, db2) => (.error e, db2)
      | (.ok _, db2) =>
        let db3 := auditoria_create db2
          { entidad := "Envio", id_entidad := envio_id, accion := "recepcion",
            descripcion := "Recepción de " ++ toString envio.1.cantidad ++
              " unidades de " ++ envio.2 ++ " en " ++ lugar_destino.1.nombre,
            id_usuario := usuario_recibe_id }
        (.ok success, db3)
    else
      (.ok success, db1)

/-- Embeds `EnvioService.cancelar_envio`: look the shipment up, reject terminal
states, mark the row cancelled and — when the `UPDATE` matched — credit the
origin place back and write the audit record. -/
def cancelar_envio (db : DB) (envio_id usuario_id : Int)
    (observaciones : String := "") : Except String Bool × DB :=
  match envio_get_by_id db envio_id with
  | none => (.error "Envío no encontrado", db)
  | some envio =>
  if envio.1.estado == .cancelado then (.error "El envío ya está cancelado", db)
  else if envio.1.estado == .recibido then
    (.error "No se puede cancelar un envío ya recibido", db)
  else
    let (success, db1) := envio_cancelar db envio_id observaciones
    if success then
      match sumar_stock db1 envio.1.producto envio.1.lugar_origen envio.1.cantidad with
      | (.error e, db2) => (.error e, db2)
      | (.ok _, db2) =>
        let db3 := auditoria_create db2
          { entidad := "Envio", id_entidad := envio_id, accion := "cancelacion",
            descripcion := "Cancelación de envío de " ++ toString envio.1.cantidad ++
              " unidades de " ++ envio.2 ++ ". Motivo: " ++ observaciones,
            id_usuario := usuario_id }
        (.ok success, db3)
    else
      (.ok success, db1)

/-! ## The Stock Ledger as a transition system -/

/-- One Stock Ledger primitive, as named by the spec (§4.1), together with
the DAO function it denotes. -/
inductive LedgerOp where
  | credit (producto lugar cantidad : Int)
  | debit (producto lugar cantidad : Int)
  | transfer (producto lugar_origen lugar_destino cantidad : Int)
  | setExact (producto lugar cantidad_nueva : Int)
deriving DecidableEq, Repr

/-- Run one ledger operation, keeping the state it leaves behind whether it
succeeds or raises. -/
def applyOp (db : DB) : LedgerOp → DB
  | .credit producto lugar cantidad => (sumar_stock db producto lugar cantidad).2
  | .debit producto lugar cantidad => (restar_stock db producto lugar cantidad).2
  | .transfer producto a b cantidad => (transferir_stock db producto a b cantidad).2
  | .setExact producto lugar n => (ajustar_stock db producto lugar n).2

/-- Run a sequence of ledger operations from a starting state. -/
def applyOps (db : DB) (ops : List LedgerOp) : DB := ops.foldl applyOp db

/-- Every ledger quantity is non-negative. -/
def stockNonneg (db : DB) : Prop := ∀ r ∈ db.stock, 0 ≤ r.cantidad

/-- Rows agreeing on (product, place) agree on quantity — the guarantee the
table's composite primary key gives every real database state. -/
def stockConsistent (db : DB) : Prop :=
  ∀ r ∈ db.stock, ∀ s ∈ db.stock,
    r.producto = s.producto → r.lugar = s.lugar → r.cantidad = s.cantidad

/-- Amount discipline under which the non-negativity invariant is preserved:
credited and transferred amounts and exact targets are non-negative. Debits
need no restriction, the insufficient-stock check rejects the harmful ones. -/
def opWF : LedgerOp → Prop
  | .credit _ _ cantidad => 0 ≤ cantidad
  | .debit _ _ _ => True
  | .transfer _ _ _ cantidad => 0 ≤ cantidad
  | .setExact _ _ n => 0 ≤ n

instance : DecidablePred opWF := fun op =>
  match op with
  | .credit _ _ c => inferInstanceAs (Decidable (0 ≤ c))
  | .debit _ _ _ => inferInstanceAs (Decidable True)
  | .transfer _ _ _ c => inferInstanceAs (Decidable (0 ≤ c))
  | .setExact _ _ n => inferInstanceAs (Decidable (0 ≤ n))

instance (db : DB) : Decidable (stockNonneg db) :=
  inferInstanceAs (Decidable (∀ r ∈ db.stock, 0 ≤ r.cantidad))

instance (db : DB) : Decidable (stockConsistent db) :=
  inferInstanceAs (Decidable (∀ r ∈ db.stock, ∀ s ∈ db.stock,
    r.producto = s.producto → r.lugar = s.lugar → r.cantidad = s.cantidad))

/-! ## Concrete sample states (used to instantiate the theorems) -/

/-- A small catalog: one product, two locations, three places (places 1 and 2
in location 1, place 3 in location 2), two users, product 1 holding 50 units
at place 1. -/
def dbBase : DB :=
  { productos := [{ id := 1, nombre := "Agua" }],
    localidades := [{ id := 1, nombre := "Viedma" }, { id := 2, nombre := "Roca" }],
    lugares := [{ id := 1, localidad := 1, nombre := "Deposito A" },
                { id := 2, localidad := 1, nombre := "Deposito B" },
                { id := 3, localidad := 2, nombre := "Deposito C" }],
    usuarios := [7, 8],
    stock := [{ producto := 1, localidad := 1, lugar := 1, cantidad := 50 }],
    envios := [], movimientos := [], auditoria := [],
    next_envio_id := 1, next_movimiento_id := 1 }

/-- Variant of `dbBase` with the quantity at (product 1, place 1) replaced. -/
def dbWith (cantidad : Int) : DB :=
  { dbBase with stock := [{ producto := 1, localidad := 1, lugar := 1, cantidad := cantidad }] }

/-- A movement payload with quantity `0` (for the service-side validation). -/
def movDataZero : MovimientoData :=
  { id_producto := some 1, cantidad := some 0,
    lugar_origen := some 1, lugar_destino := some 1 }

/-- A shipment payload: 30 units of product 1 from place 1 to location 2. -/
def envDataBase : EnvioData :=
  { id_producto := some 1, cantidad := some 30, localidad_destino := some 2,
    lugar_origen := some 1, motivo := some "reparto" }

/-- A cancelled shipment (id 1). -/
def envioCancelado : Envio :=
  { id := 1, producto := 1, cantidad := 10, usuario_envia := 7,
    usuario_recibe := none, localidad_origen := 1, localidad_destino := 2,
    lugar_origen := 1, lugar_destino := none, estado := .cancelado,
    motivo := "", observaciones_envio := "",
    observaciones_recepcion := "", observaciones_cancelacion := "" }

/-- A received shipment (id 2). -/
def envioRecibido : Envio :=
  { id := 2, producto := 1, cantidad := 10, usuario_envia := 7,
    usuario_recibe := some 8, localidad_origen := 1, localidad_destino := 2,
    lugar_origen := 1, lugar_destino := some 3, estado := .recibido,
    motivo := "", observaciones_envio := "",
    observaciones_recepcion := "", observaciones_cancelacion := "" }

/-- Variant of `dbBase` with two terminal shipments: shipment 1 is cancelled, shipment 2
is received. -/
def dbTerminal : DB :=
  { dbBase with envios := [envioCancelado, envioRecibido], next_envio_id := 3 }

/-! ## Shared lemmas about the ledger primitives -/

theorem stockKey_iff {p l : Int} {r : StockRow} :
    stockKey p l r = true ↔ r.producto = p ∧ r.lugar = l := by
  simp [stockKey]

theorem stockKey_update (p l p' l' : Int) (g : Int → Int) (r : StockRow) :
    stockKey p' l'
      (if stockKey p l r then { r with cantidad := g r.cantidad } else r) =
    stockKey p' l' r := by
  split <;> rfl

theorem find?_updateCantidad (p l p' l' : Int) (g : Int → Int)
    (stock : List StockRow) :
    (updateCantidad p l g stock).find? (stockKey p' l') =
      (stock.find? (stockKey p' l')).map
        (fun r => if stockKey p l r then { r with cantidad := g r.cantidad } else r) := by
  unfold updateCantidad
  rw [List.find?_map]
  simp only [Function.comp_def, stockKey_update]

theorem updateCantidad_of_find?_none {p l : Int} {g : Int → Int}
    {stock : List StockRow} (h : stock.find? (stockKey p l) = none) :
    updateCantidad p l g stock = stock := by
  unfold updateCantidad
  induction stock with
  | nil => rfl
  | cons a t ih =>
    have hb : stockKey p l a = false := by
      cases hb : stockKey p l a
      · rfl
      · simp [List.find?, hb] at h
    have ht : t.find? (stockKey p l) = none := by
      simpa [List.find?, hb] using h
    simp [hb, ih ht]

theorem stock_lookup_updateCantidad_self {p l : Int} {g : Int → Int}
    {stock : List StockRow} {r : StockRow}
    (h : stock.find? (stockKey p l) = some r) :
    stock_lookup (updateCantidad p l g stock) p l = g r.cantidad := by
  have hk := List.find?_some h
  unfold stock_lookup
  rw [find?_updateCantidad, h]
  simp [hk]

theorem stock_lookup_updateCantidad_other {p l p' l' : Int} {g : Int → Int}
    {stock : List StockRow} (h : ¬(p' = p ∧ l' = l)) :
    stock_lookup (updateCantidad p l g stock) p' l' = stock_lookup stock p' l' := by
  unfold stock_lookup
  rw [find?_updateCantidad]
  cases hf : stock.find? (stockKey p' l') with
  | none => rfl
  | some r =>
    have hk := stockKey_iff.mp (List.find?_some hf)
    have hne : stockKey p l r = false := by
      by_contra hb
      rw [Bool.not_eq_false] at hb
      have hk2 := stockKey_iff.mp hb
      exact h ⟨hk.1.symm.trans hk2.1, hk.2.symm.trans hk2.2⟩
    simp [hne]

theorem stockKey_congr {p l : Int} {r s : StockRow}
    (h1 : r.producto = s.producto) (h2 : r.lugar = s.lugar) :
    stockKey p l r = stockKey p l s := by
  simp [stockKey, h1, h2]

theorem nonneg_updateCantidad {stock : List StockRow} {p l : Int} {g : Int → Int}
    (hn : ∀ r ∈ stock, 0 ≤ r.cantidad)
    (hg : ∀ r ∈ stock, stockKey p l r = true → 0 ≤ g r.cantidad) :
    ∀ r ∈ updateCantidad p l g stock, 0 ≤ r.cantidad := by
  intro r' hr'
  unfold updateCantidad at hr'
  rw [List.mem_map] at hr'
  obtain ⟨r, hr, rfl⟩ := hr'
  by_cases hk : stockKey p l r = true
  · simpa [hk] using hg r hr hk
  · simpa [hk] using hn r hr

theorem consistent_updateCantidad {stock : List StockRow} {p l : Int} {g : Int → Int}
    (hc : ∀ r ∈ stock, ∀ s ∈ stock,
      r.producto = s.producto → r.lugar = s.lugar → r.cantidad = s.cantidad) :
    ∀ r ∈ updateCantidad p l g stock, ∀ s ∈ updateCantidad p l g stock,
      r.producto = s.producto → r.lugar = s.lugar → r.cantidad = s.cantidad := by
  intro r' hr' s' hs' hp hl
  unfold updateCantidad at hr' hs'
  rw [List.mem_map] at hr' hs'
  obtain ⟨r, hr, rfl⟩ := hr'
  obtain ⟨s, hs, rfl⟩ := hs'
  have hrp : ∀ x : StockRow,
      ((if stockKey p l x then { x with cantidad := g x.cantidad } else x).producto
        = x.producto) ∧
      ((if stockKey p l x then { x with cantidad := g x.cantidad } else x).lugar
        = x.lugar) := by
    intro x; constructor <;> (split <;> rfl)
  rw [(hrp r).1, (hrp s).1] at hp
  rw [(hrp r).2, (hrp s).2] at hl
  have hcant := hc r hr s hs hp hl
  have hkey := stockKey_congr (p := p) (l := l) hp hl
  by_cases hk : stockKey p l r = true
  · have hk2 : stockKey p l s = true := hkey ▸ hk
    simp [hk, hk2, hcant]
  · have hk2 : ¬ stockKey p l s = true := by rw [← hkey]; exact hk
    simp [hk, hk2, hcant]

theorem stock_lookup_append (stock : List StockRow) (row : StockRow) (p l : Int) :
    stock_lookup (stock ++ [row]) p l =
      match stock.find? (stockKey p l) with
      | some r => r.cantidad
      | none => if stockKey p l row then row.cantidad else 0 := by
  unfold stock_lookup
  rw [List.find?_append]
  cases stock.find? (stockKey p l) with
  | none =>
    cases hb : stockKey p l row <;> simp [List.find?, hb]
  | some r => rfl

theorem stockNonneg_mk {db : DB} {s : List StockRow}
    (h : ∀ r ∈ s, 0 ≤ r.cantidad) : stockNonneg { db with stock := s } := h

theorem stockConsistent_mk {db : DB} {s : List StockRow}
    (h : ∀ r ∈ s, ∀ t ∈ s,
      r.producto = t.producto → r.lugar = t.lugar → r.cantidad = t.cantidad) :
    stockConsistent { db with stock := s } := h

/-! ## Branch characterizations of the ledger primitives -/

theorem sumar_stock_eq_found {db : DB} {p l c : Int} {r : StockRow}
    (hf : db.stock.find? (stockKey p l) = some r) :
    sumar_stock db p l c =
      (.ok true, { db with stock := updateCantidad p l (· + c) db.stock }) := by
  unfold sumar_stock
  rw [hf]

theorem sumar_stock_eq_insert {db : DB} {p l c : Int} {lug : LugarRow}
    (hf : db.stock.find? (stockKey p l) = none)
    (hlug : db.lugares.find? (fun x => x.id == l) = some lug) :
    sumar_stock db p l c =
      (.ok true, { db with stock := db.stock ++
        [{ producto := p, localidad := lug.localidad, lugar := l, cantidad := c }] }) := by
  unfold sumar_stock
  rw [hf, hlug]

theorem sumar_stock_eq_nolugar {db : DB} {p l c : Int}
    (hf : db.stock.find? (stockKey p l) = none)
    (hlug : db.lugares.find? (fun x => x.id == l) = none) :
    sumar_stock db p l c =
      (.error ("Lugar " ++ toString l ++ " no encontrado"), db) := by
  unfold sumar_stock
  rw [hf, hlug]

theorem restar_stock_eq_insufficient {db : DB} {p l c : Int}
    (h : get_stock db p l < c) :
    restar_stock db p l c =
      (.error ("Stock insuficiente. Disponible: " ++ toString (get_stock db p l) ++
               ", Requerido: " ++ toString c), db) := by
  simp only [restar_stock]
  rw [if_pos h]

theorem restar_stock_eq_ok {db : DB} {p l c : Int}
    (h : ¬ get_stock db p l < c) :
    restar_stock db p l c =
      (.ok (db.stock.find? (stockKey p l)).isSome,
       { db with stock := updateCantidad p l (· - c) db.stock }) := by
  simp only [restar_stock]
  rw [if_neg h]

theorem transferir_stock_eq_insufficient {db : DB} {p a b c : Int}
    (h : get_stock db p a < c) :
    transferir_stock db p a b c =
      (.error ("Stock insuficiente en origen. Disponible: " ++
               toString (get_stock db p a)), db) := by
  simp only [transferir_stock]
  rw [if_pos h]

theorem transferir_stock_snd {db : DB} {p a b c : Int}
    (h : ¬ get_stock db p a < c) :
    (transferir_stock db p a b c).2 =
      (sumar_stock { db with stock := updateCantidad p a (· - c) db.stock } p b c).2 := by
  simp only [transferir_stock]
  rw [if_neg h, restar_stock_eq_ok h]
  rcases hs : sumar_stock { db with stock := updateCantidad p a (· - c) db.stock } p b c
    with ⟨fst, snd⟩
  cases fst <;> simp [hs]

theorem ajustar_stock_eq_found {db : DB} {p l n : Int} {m : String}
    (hf : (db.stock.find? (stockKey p l)).isSome) :
    ajustar_stock db p l n m =
      (.ok true, { db with stock := updateCantidad p l (fun _ => n) db.stock }) := by
  simp only [ajustar_stock]
  rw [if_pos hf]

theorem ajustar_stock_eq_insert {db : DB} {p l n : Int} {m : String} {lug : LugarRow}
    (hf : db.stock.find? (stockKey p l) = none)
    (hlug : db.lugares.find? (fun x => x.id == l) = some lug) :
    ajustar_stock db p l n m =
      (.ok true, { db with stock := db.stock ++
        [{ producto := p, localidad := lug.localidad, lugar := l, cantidad := n }] }) := by
  simp only [ajustar_stock, hf, hlug, Option.isSome_none, Bool.false_eq_true,
    if_false]

theorem ajustar_stock_eq_nolugar {db : DB} {p l n : Int} {m : String}
    (hf : db.stock.find? (stockKey p l) = none)
    (hlug : db.lugares.find? (fun x => x.id == l) = none) :
    ajustar_stock db p l n m =
      (.error "TypeError: NoneType object is not subscriptable", db) := by
  simp only [ajustar_stock, hf, hlug, Option.isSome_none, Bool.false_eq_true,
    if_false]

/-! ## Preservation of the non-negativity invariant by each primitive -/

theorem sumar_stock_inv {db : DB} {p l c : Int}
    (hn : stockNonneg db) (hc : stockConsistent db) (h0 : 0 ≤ c) :
    stockNonneg (sumar_stock db p l c).2 ∧ stockConsistent (sumar_stock db p l c).2 := by
  cases hf : db.stock.find? (stockKey p l) with
  | some r =>
    rw [sumar_stock_eq_found hf]
    refine ⟨stockNonneg_mk (nonneg_updateCantidad hn ?_),
            stockConsistent_mk (consistent_updateCantidad hc)⟩
    intro y hy _
    show 0 ≤ y.cantidad + c
    have := hn y hy
    omega
  | none =>
    cases hlug : db.lugares.find? (fun x => x.id == l) with
    | none =>
      rw [sumar_stock_eq_nolugar hf hlug]
      exact ⟨hn, hc⟩
    | some lug =>
      rw [sumar_stock_eq_insert hf hlug]
      refine ⟨stockNonneg_mk ?_, stockConsistent_mk ?_⟩
      · intro x hx
        rcases List.mem_append.mp hx with hx' | hx'
        · exact hn x hx'
        · rw [List.mem_singleton] at hx'
          subst hx'
          exact h0
      · intro x hx y hy hp' hl'
        have hnone := List.find?_eq_none.mp hf
        rcases List.mem_append.mp hx with hx' | hx' <;>
          rcases List.mem_append.mp hy with hy' | hy'
        · exact hc x hx' y hy' hp' hl'
        · rw [List.mem_singleton] at hy'
          subst hy'
          exact absurd (stockKey_iff.mpr ⟨hp', hl'⟩) (hnone x hx')
        · rw [List.mem_singleton] at hx'
          subst hx'
          exact absurd (stockKey_iff.mpr ⟨hp'.symm, hl'.symm⟩) (hnone y hy')
        · rw [List.mem_singleton] at hx' hy'
          subst hx'
          subst hy'
          rfl

theorem restar_stock_inv {db : DB} {p l c : Int}
    (hn : stockNonneg db) (hc : stockConsistent db) :
    stockNonneg (restar_stock db p l c).2 ∧ stockConsistent (restar_stock db p l c).2 := by
  by_cases h : get_stock db p l < c
  · rw [restar_stock_eq_insufficient h]
    exact ⟨hn, hc⟩
  · rw [restar_stock_eq_ok h]
    refine ⟨stockNonneg_mk (nonneg_updateCantidad hn ?_),
            stockConsistent_mk (consistent_updateCantidad hc)⟩
    intro y hy hk
    show 0 ≤ y.cantidad - c
    cases hf : db.stock.find? (stockKey p l) with
    | none =>
      exact absurd hk (List.find?_eq_none.mp hf y hy)
    | some r0 =>
      have hky := stockKey_iff.mp hk
      have hk0 := stockKey_iff.mp (List.find?_some hf)
      have heq := hc y hy r0 (List.mem_of_find?_eq_some hf)
        (hky.1.trans hk0.1.symm) (hky.2.trans hk0.2.symm)
      have hg0 : get_stock db p l = r0.cantidad := by
        simp [get_stock, stock_lookup, hf]
      omega

theorem transferir_stock_inv {db : DB} {p a b c : Int}
    (hn : stockNonneg db) (hc : stockConsistent db) (h0 : 0 ≤ c) :
    stockNonneg (transferir_stock db p a b c).2 ∧
      stockConsistent (transferir_stock db p a b c).2 := by
  by_cases h : get_stock db p a < c
  · rw [transferir_stock_eq_insufficient h]
    exact ⟨hn, hc⟩
  · rw [transferir_stock_snd h]
    have h1 := @restar_stock_inv db p a c hn hc
    rw [restar_stock_eq_ok h] at h1
    exact sumar_stock_inv h1.1 h1.2 h0

theorem ajustar_stock_inv {db : DB} {p l n : Int} {m : String}
    (hn : stockNonneg db) (hc : stockConsistent db) (h0 : 0 ≤ n) :
    stockNonneg (ajustar_stock db p l n m).2 ∧
      stockConsistent (ajustar_stock db p l n m).2 := by
  cases hf : db.stock.find? (stockKey p l) with
  | some r =>
    rw [ajustar_stock_eq_found (by rw [hf]; rfl)]
    exact ⟨stockNonneg_mk (nonneg_updateCantidad hn (fun y _ _ => h0)),
           stockConsistent_mk (consistent_updateCantidad hc)⟩
  | none =>
    cases hlug : db.lugares.find? (fun x => x.id == l) with
    | none =>
      rw [ajustar_stock_eq_nolugar hf hlug]
      exact ⟨hn, hc⟩
    | some lug =>
      rw [ajustar_stock_eq_insert hf hlug]
      refine ⟨stockNonneg_mk ?_, stockConsistent_mk ?_⟩
      · intro x hx
        rcases List.mem_append.mp hx with hx' | hx'
        · exact hn x hx'
        · rw [List.mem_singleton] at hx'
          subst hx'
          exact h0
      · intro x hx y hy hp' hl'
        have hnone := List.find?_eq_none.mp hf
        rcases List.mem_append.mp hx with hx' | hx' <;>
          rcases List.mem_append.mp hy with hy' | hy'
        · exact hc x hx' y hy' hp' hl'
        · rw [List.mem_singleton] at hy'
          subst hy'
          exact absurd (stockKey_iff.mpr ⟨hp', hl'⟩) (hnone x hx')
        · rw [List.mem_singleton] at hx'
          subst hx'
          exact absurd (stockKey_iff.mpr ⟨hp'.symm, hl'.symm⟩) (hnone y hy')
        · rw [List.mem_singleton] at hx' hy'
          subst hx'
          subst hy'
          rfl

theorem applyOp_inv {db : DB} {op : LedgerOp}
    (hn : stockNonneg db) (hc : stockConsistent db) (hop : opWF op) :
    stockNonneg (applyOp db op) ∧ stockConsistent (applyOp db op) := by
  cases op with
  | credit p l c => exact sumar_stock_inv hn hc hop
  | debit p l c => exact restar_stock_inv hn hc
  | transfer p a b c => exact transferir_stock_inv hn hc hop
  | setExact p l n => exact ajustar_stock_inv hn hc hop

theorem applyOps_inv {db : DB} {ops : List LedgerOp}
    (hn : stockNonneg db) (hc : stockConsistent db)
    (hops : ∀ op ∈ ops, opWF op) :
    stockNonneg (applyOps db ops) ∧ stockConsistent (applyOps db ops) := by
  induction ops generalizing db with
  | nil => exact ⟨hn, hc⟩
  | cons op rest ih =>
    have h1 := applyOp_inv hn hc (hops op (by simp))
    exact ih h1.1 h1.2 (fun o ho => hops o (by simp [ho]))

theorem get_stock_mk (db : DB) (s : List StockRow) (p l : Int) :
    get_stock { db with stock := s } p l = stock_lookup s p l := rfl

/-! ## Claim C1 -/

/-- C1 as stated is false: from the all-non-negative state `dbBase`, one
ledger credit (`sumar_stock`) of a negative amount drives the quantity at
(product 1, place 2) below zero — the DAO never validates the sign of the
credited amount. -/
theorem C1_counterexample :
    stockNonneg dbBase ∧
      ¬ stockNonneg (applyOps dbBase [.credit 1 2 (-1)]) := by
  constructor
  · decide
  · decide

/-- C1 (amended): for every sequence of ledger operations whose credited and
transferred amounts and setExact targets are non-negative (debit amounts are
unrestricted), starting from a state whose ledger is key-consistent (the
primary-key guarantee) and has all quantities ≥ 0, all quantities stay ≥ 0. -/
theorem C1_ledger_nonneg (db : DB) (ops : List LedgerOp)
    (hn : stockNonneg db) (hc : stockConsistent db)
    (hops : ∀ op ∈ ops, opWF op) :
    stockNonneg (applyOps db ops) :=
  (applyOps_inv hn hc hops).1

theorem C1_witness :
    stockNonneg dbBase ∧ stockConsistent dbBase ∧
      (∀ op ∈ ([.credit 1 1 5, .debit 1 1 20, .transfer 1 1 2 10,
                .setExact 1 3 4] : List LedgerOp), opWF op) ∧
      stockNonneg (applyOps dbBase
        [.credit 1 1 5, .debit 1 1 20, .transfer 1 1 2 10, .setExact 1 3 4]) :=
  ⟨by decide, by decide, by decide,
   C1_ledger_nonneg dbBase
     [.credit 1 1 5, .debit 1 1 20, .transfer 1 1 2 10, .setExact 1 3 4]
     (by decide) (by decide) (by decide)⟩

/-! ## Claim C2 -/

/-- C2: for a positive requested amount, the ledger debit fails — with the
insufficient-stock error reporting available vs. requested — exactly when the
current quantity is strictly below the request, and a failed debit leaves the
database unchanged. -/
theorem C2_debit_insufficient_iff (db : DB) (p l c : Int) (_hpos : 0 < c) :
    ((restar_stock db p l c).1 =
        .error ("Stock insuficiente. Disponible: " ++ toString (get_stock db p l) ++
                ", Requerido: " ++ toString c)
      ↔ get_stock db p l < c) ∧
    (get_stock db p l < c → (restar_stock db p l c).2 = db) := by
  refine ⟨⟨?_, ?_⟩, ?_⟩
  · intro herr
    by_contra hge
    rw [restar_stock_eq_ok hge] at herr
    exact Except.noConfusion herr
  · intro hlt
    rw [restar_stock_eq_insufficient hlt]
  · intro hlt
    rw [restar_stock_eq_insufficient hlt]

theorem C2_witness :
    (0:Int) < 60 ∧
    ((((restar_stock dbBase 1 1 60).1 =
        .error ("Stock insuficiente. Disponible: " ++ toString (get_stock dbBase 1 1) ++
                ", Requerido: " ++ toString (60:Int)))
      ↔ get_stock dbBase 1 1 < 60) ∧
     (get_stock dbBase 1 1 < 60 → (restar_stock dbBase 1 1 60).2 = dbBase)) :=
  ⟨by decide, C2_debit_insufficient_iff dbBase 1 1 60 (by decide)⟩

/-! ## Claim C7 -/

/-- C7 as stated is false: the DAO-level credit and debit perform no
positivity validation at all — credit of −1, debit of −1 and debit of 0 all
succeed instead of failing with an invalid-argument error (debit of −1 even
increases the stock). -/
theorem C7_counterexample :
    (sumar_stock dbBase 1 1 (-1)).1 = .ok true ∧
    (restar_stock dbBase 1 1 (-1)).1 = .ok true ∧
    (restar_stock dbBase 1 1 0).1 = .ok true ∧
    get_stock (sumar_stock dbBase 1 1 (-1)).2 1 1 = 49 :=
  ⟨rfl, rfl, rfl, by decide⟩

/-- C7 (amended): the amount > 0 validation lives in the Movement Engine, not
the Stock Ledger: `crear_entrada` and `crear_salida` reject a non-positive
quantity with the validation error before touching any state. -/
theorem C7_service_rejects_nonpositive (db : DB) (data : MovimientoData)
    (u loc c : Int) (hc : data.cantidad = some c) (hle : c ≤ 0)
    (hp : truthyInt data.id_producto = true) :
    crear_entrada db data u loc = (.error "Cantidad debe ser mayor a 0", db) ∧
    crear_salida db data u loc = (.error "Cantidad debe ser mayor a 0", db) := by
  have hval : ∀ t : Tipo,
      validate_movimiento_data data t = .error "Cantidad debe ser mayor a 0" := by
    intro t
    unfold validate_movimiento_data
    rw [hp, hc]
    simp [hle]
  constructor
  · unfold crear_entrada
    rw [hval Tipo.entrada]
  · unfold crear_salida
    rw [hval Tipo.salida]

theorem C7_witness :
    movDataZero.cantidad = some 0 ∧
    (0:Int) ≤ 0 ∧
    truthyInt movDataZero.id_producto = true ∧
    (crear_entrada dbBase movDataZero 7 1
        = (.error "Cantidad debe ser mayor a 0", dbBase) ∧
     crear_salida dbBase movDataZero 7 1
        = (.error "Cantidad debe ser mayor a 0", dbBase)) :=
  ⟨rfl, by decide, by decide,
   C7_service_rejects_nonpositive dbBase movDataZero 7 1 0 rfl (by decide) (by decide)⟩

/-! ## Claim C8 -/

/-- C8 as stated is false: `ajustar_stock` does not return the prior
quantity; it returns the constant boolean `True` — two states whose prior
quantities differ (5 vs. 7) produce the identical return value. -/
theorem C8_counterexample :
    get_stock (dbWith 5) 1 1 ≠ get_stock (dbWith 7) 1 1 ∧
    (ajustar_stock (dbWith 5) 1 1 3).1 = .ok true ∧
    (ajustar_stock (dbWith 7) 1 1 3).1 = .ok true :=
  ⟨by decide, rfl, rfl⟩

/-- C8 (amended): for an existing place, `ajustar_stock` overwrites (or
creates) the record with exactly the new quantity and returns the boolean
`True`; the prior quantity is not part of its return value (the caller
`crear_ajuste` reads it with `get_stock` before the call). -/
theorem C8_setExact_overwrites (db : DB) (p l n : Int) (m : String)
    (_h0 : 0 ≤ n) (hlug : (db.lugares.find? (fun x => x.id == l)).isSome) :
    (ajustar_stock db p l n m).1 = .ok true ∧
    get_stock (ajustar_stock db p l n m).2 p l = n := by
  cases hf : db.stock.find? (stockKey p l) with
  | some r =>
    rw [ajustar_stock_eq_found (by rw [hf]; rfl)]
    refine ⟨rfl, ?_⟩
    rw [get_stock_mk, stock_lookup_updateCantidad_self hf]
  | none =>
    obtain ⟨lug, hlug'⟩ := Option.isSome_iff_exists.mp hlug
    rw [ajustar_stock_eq_insert hf hlug']
    refine ⟨rfl, ?_⟩
    rw [get_stock_mk, stock_lookup_append, hf]
    simp [stockKey]

theorem C8_witness :
    (0:Int) ≤ 30 ∧
    ((dbBase.lugares.find? (fun x => x.id == 2)).isSome = true) ∧
    ((ajustar_stock dbBase 1 2 30 "conteo").1 = .ok true ∧
     get_stock (ajustar_stock dbBase 1 2 30 "conteo").2 1 2 = 30) :=
  ⟨by decide, by decide,
   C8_setExact_overwrites dbBase 1 2 30 "conteo" (by decide) (by decide)⟩

/-! ## Claim C5 -/

/-- C5: on an existing shipment, receive when the state is cancelled fails
with the "is cancelled" error, cancel when the state is received fails with
the "already received" error, and both failures leave the database (hence
every ledger quantity) unchanged. -/
theorem C5_terminal_states (db : DB) (envio_id u l : Int) (obs : String)
    (e : Envio) (pn : String) (h : envio_get_by_id db envio_id = some (e, pn)) :
    (e.estado = .cancelado →
      recibir_envio db envio_id u l obs = (.error "El envío está cancelado", db)) ∧
    (e.estado = .recibido →
      cancelar_envio db envio_id u obs =
        (.error "No se puede cancelar un envío ya recibido", db)) := by
  constructor
  · intro hcanc
    unfold recibir_envio
    rw [h]
    simp [hcanc]
  · intro hrec
    unfold cancelar_envio
    rw [h]
    simp [hrec]

theorem C5_witness :
    envio_get_by_id dbTerminal 1 = some (envioCancelado, "Agua") ∧
    envio_get_by_id dbTerminal 2 = some (envioRecibido, "Agua") ∧
    recibir_envio dbTerminal 1 8 3 "" = (.error "El envío está cancelado", dbTerminal) ∧
    cancelar_envio dbTerminal 2 8 "" =
      (.error "No se puede cancelar un envío ya recibido", dbTerminal) :=
  ⟨rfl, rfl,
   (C5_terminal_states dbTerminal 1 8 3 "" envioCancelado "Agua" rfl).1 rfl,
   (C5_terminal_states dbTerminal 2 8 3 "" envioRecibido "Agua" rfl).2 rfl⟩

/-! ## Claim C9 -/

theorem envio_get_by_id_find? {db : DB} {envio_id : Int} {e : Envio} {pn : String}
    (h : envio_get_by_id db envio_id = some (e, pn)) :
    db.envios.find? (fun x => x.id == envio_id) = some e := by
  unfold envio_get_by_id at h
  cases hf : db.envios.find? (fun x => x.id == envio_id) with
  | none => simp [hf] at h
  | some e' =>
    simp only [hf] at h
    cases hp : producto_get_by_id db e'.producto with
    | none => simp [hp] at h
    | some p =>
      simp only [hp] at h
      split at h
      · simp only [Option.some.injEq, Prod.mk.injEq] at h
        rw [← h.1]
      · exact Option.noConfusion h

theorem marcar_recibido_success {db : DB} {envio_id : Int} {e : Envio}
    (hf : db.envios.find? (fun x => x.id == envio_id) = some e)
    (h1 : e.estado ≠ .recibido) (h2 : e.estado ≠ .cancelado)
    (u l : Int) (obs : String) :
    (marcar_recibido db envio_id u l obs).1 = true := by
  unfold marcar_recibido
  rw [List.any_eq_true]
  refine ⟨e, List.mem_of_find?_eq_some hf, ?_⟩
  have hid := List.find?_some hf
  cases he : e.estado <;> simp_all

theorem envio_cancelar_success {db : DB} {envio_id : Int} {e : Envio}
    (hf : db.envios.find? (fun x => x.id == envio_id) = some e)
    (h2 : e.estado ≠ .recibido) (obs : String) :
    (envio_cancelar db envio_id obs).1 = true := by
  unfold envio_cancelar
  rw [List.any_eq_true]
  refine ⟨e, List.mem_of_find?_eq_some hf, ?_⟩
  have hid := List.find?_some hf
  cases he : e.estado <;> simp_all

/-- C9: neither shipment receive nor shipment cancel can report a rejection
as `ok False`: every rejection is a raised (typed) error, and whenever the
operation returns normally its boolean is `True`. -/
theorem C9_no_silent_false (db : DB) (envio_id u l : Int) (obs : String) :
    (recibir_envio db envio_id u l obs).1 ≠ .ok false ∧
    (cancelar_envio db envio_id u obs).1 ≠ .ok false := by
  constructor
  · unfold recibir_envio
    cases hq : envio_get_by_id db envio_id with
    | none => simp
    | some epn =>
      obtain ⟨e, pn⟩ := epn
      by_cases h1 : e.estado = .recibido
      · simp [h1]
      · by_cases h2 : e.estado = .cancelado
        · simp [h1, h2]
        · cases hlug : lugar_get_by_id db l with
          | none => simp [h1, h2, hlug]
          | some ld =>
            by_cases h3 : ld.1.localidad = e.localidad_destino
            · have hs := marcar_recibido_success (envio_get_by_id_find? hq) h1 h2 u l obs
              rcases hm : marcar_recibido db envio_id u l obs with ⟨succ, db1⟩
              rw [hm] at hs
              simp only at hs
              subst hs
              rcases hsum : sumar_stock db1 e.producto l e.cantidad with ⟨code, db2⟩
              cases code <;> simp [h1, h2, hlug, h3, hm, hsum]
            · simp [h1, h2, hlug, h3]
  · unfold cancelar_envio
    cases hq : envio_get_by_id db envio_id with
    | none => simp
    | some epn =>
      obtain ⟨e, pn⟩ := epn
      by_cases h2 : e.estado = .cancelado
      · simp [h2]
      · by_cases h1 : e.estado = .recibido
        · simp [h1, h2]
        · have hs := envio_cancelar_success (envio_get_by_id_find? hq) h1 obs
          rcases hm : envio_cancelar db envio_id obs with ⟨succ, db1⟩
          rw [hm] at hs
          simp only at hs
          subst hs
          rcases hsum : sumar_stock db1 e.producto e.lugar_origen e.cantidad
            with ⟨code, db2⟩
          cases code <;> simp [h1, h2, hm, hsum]

theorem C9_witness :
    (recibir_envio dbTerminal 1 8 3 "").1 ≠ .ok false ∧
    (cancelar_envio dbTerminal 1 8 "").1 ≠ .ok false :=
  C9_no_silent_false dbTerminal 1 8 3 ""

/-! ## Claims C6 and C10: the adjustment movement -/

theorem lugar_get_by_id_find? {db : DB} {l : Int} {lug : LugarRow} {nom : String}
    (h : lugar_get_by_id db l = some (lug, nom)) :
    db.lugares.find? (fun x => x.id == l) = some lug := by
  unfold lugar_get_by_id at h
  cases hf : db.lugares.find? (fun x => x.id == l) with
  | none => simp [hf] at h
  | some lg =>
    simp only [hf] at h
    cases hloc : db.localidades.find? (fun x => x.id == lg.localidad) with
    | none => simp [hloc] at h
    | some loc =>
      simp only [hloc, Option.some.injEq, Prod.mk.injEq] at h
      rw [← h.1]

theorem crear_ajuste_shape {db : DB} {data : MovimientoData} {u loc p l n : Int}
    {prod : ProductoRow} {lug : LugarRow} {nom : String}
    (hn : data.cantidad_nueva = some n) (h0 : ¬ n < 0)
    (hp : data.id_producto = some p) (hl : data.lugar_id = some l)
    (hprod : producto_get_by_id db p = some prod)
    (hlug : lugar_get_by_id db l = some (lug, nom)) :
    ∃ db', crear_ajuste db data u loc = (.ok db.next_movimiento_id, db') ∧
      db'.movimientos = db.movimientos ++
        [{ id := db.next_movimiento_id, tipo := .ajuste,
           cantidad := ((n - get_stock db p l).natAbs : Int),
           producto := p, usuario := u, localidad := loc,
           lugar_origen := if n - get_stock db p l < 0 then some l else none,
           lugar_destino := if n - get_stock db p l > 0 then some l else none,
           motivo := data.motivo.getD "Ajuste de inventario",
           observaciones := "Stock anterior: " ++ toString (get_stock db p l) ++
             ", Stock nuevo: " ++ toString n ++ ", Diferencia: " ++
             fmtSigned (n - get_stock db p l) ++ ". " ++
             data.observaciones.getD "" }] ∧
      get_stock db' p l = n := by
  unfold crear_ajuste
  simp only [hn, hp, hl, hprod, hlug]
  rw [if_neg h0]
  simp only [movimiento_create, ajustar_stock]
  cases hf : db.stock.find? (stockKey p l) with
  | some r =>
    simp only [hf, Option.isSome_some, if_true]
    refine ⟨_, rfl, rfl, ?_⟩
    show stock_lookup (updateCantidad p l (fun _ => n) db.stock) p l = n
    rw [stock_lookup_updateCantidad_self hf]
  | none =>
    have hlf := lugar_get_by_id_find? hlug
    simp only [hf, Option.isSome_none, Bool.false_eq_true, if_false, hlf]
    refine ⟨_, rfl, rfl, ?_⟩
    show stock_lookup (db.stock ++
      [{ producto := p, localidad := lug.localidad, lugar := l, cantidad := n }]) p l = n
    rw [stock_lookup_append, hf]
    simp [stockKey]

/-- C6: a successful adjustment records one adjustment movement; when the new
quantity is below the current one the movement carries quantity
current − new, the adjusted place as origin and no destination, and when it
is above, quantity new − current, the adjusted place as destination and no
origin. -/
theorem C6_adjustment_movement (db : DB) (data : MovimientoData)
    (u loc p l n : Int) (prod : ProductoRow) (lug : LugarRow) (nom : String)
    (hn : data.cantidad_nueva = some n) (h0 : 0 ≤ n)
    (hp : data.id_producto = some p) (hl : data.lugar_id = some l)
    (hprod : producto_get_by_id db p = some prod)
    (hlug : lugar_get_by_id db l = some (lug, nom)) :
    ∃ db' mov, crear_ajuste db data u loc = (.ok db.next_movimiento_id, db') ∧
      db'.movimientos = db.movimientos ++ [mov] ∧ mov.tipo = .ajuste ∧
      (n < get_stock db p l →
        mov.cantidad = get_stock db p l - n ∧
        mov.lugar_origen = some l ∧ mov.lugar_destino = none) ∧
      (get_stock db p l < n →
        mov.cantidad = n - get_stock db p l ∧
        mov.lugar_destino = some l ∧ mov.lugar_origen = none) := by
  obtain ⟨db', heq, hmov, -⟩ :=
    crear_ajuste_shape hn (not_lt.mpr h0) hp hl hprod hlug
  refine ⟨db', _, heq, hmov, rfl, ?_, ?_⟩
  · intro hlt
    have hneg : n - get_stock db p l < 0 := by omega
    refine ⟨?_, ?_, ?_⟩
    · show ((n - get_stock db p l).natAbs : Int) = get_stock db p l - n
      omega
    · show (if n - get_stock db p l < 0 then some l else none) = some l
      rw [if_pos hneg]
    · show (if n - get_stock db p l > 0 then some l else none) = none
      rw [if_neg (by omega)]
  · intro hgt
    have hpos : n - get_stock db p l > 0 := by omega
    refine ⟨?_, ?_, ?_⟩
    · show ((n - get_stock db p l).natAbs : Int) = n - get_stock db p l
      omega
    · show (if n - get_stock db p l > 0 then some l else none) = some l
      rw [if_pos hpos]
    · show (if n - get_stock db p l < 0 then some l else none) = none
      rw [if_neg (by omega)]

theorem C6_witness :
    ∃ db' mov,
      crear_ajuste dbBase
          { id_producto := some 1, lugar_id := some 1, cantidad_nueva := some 30 }
          7 1 = (.ok dbBase.next_movimiento_id, db') ∧
      db'.movimientos = dbBase.movimientos ++ [mov] ∧ mov.tipo = .ajuste ∧
      (30 < get_stock dbBase 1 1 →
        mov.cantidad = get_stock dbBase 1 1 - 30 ∧
        mov.lugar_origen = some 1 ∧ mov.lugar_destino = none) ∧
      (get_stock dbBase 1 1 < 30 →
        mov.cantidad = 30 - get_stock dbBase 1 1 ∧
        mov.lugar_destino = some 1 ∧ mov.lugar_origen = none) :=
  C6_adjustment_movement dbBase
    { id_producto := some 1, lugar_id := some 1, cantidad_nueva := some 30 }
    7 1 1 1 30 { id := 1, nombre := "Agua" }
    { id := 1, localidad := 1, nombre := "Deposito A" } "Viedma"
    rfl (by decide) rfl rfl rfl rfl

/-- C10: an adjustment whose new quantity equals the current quantity
succeeds, records an adjustment movement with quantity 0 and neither origin
nor destination place, and leaves the ledger quantity at (product, place)
unchanged. -/
theorem C10_adjustment_zero_delta (db : DB) (data : MovimientoData)
    (u loc p l n : Int) (prod : ProductoRow) (lug : LugarRow) (nom : String)
    (hn : data.cantidad_nueva = some n) (h0 : 0 ≤ n)
    (heq : get_stock db p l = n)
    (hp : data.id_producto = some p) (hl : data.lugar_id = some l)
    (hprod : producto_get_by_id db p = some prod)
    (hlug : lugar_get_by_id db l = some (lug, nom)) :
    ∃ db' mov, crear_ajuste db data u loc = (.ok db.next_movimiento_id, db') ∧
      db'.movimientos = db.movimientos ++ [mov] ∧ mov.tipo = .ajuste ∧
      mov.cantidad = 0 ∧ mov.lugar_origen = none ∧ mov.lugar_destino = none ∧
      get_stock db' p l = get_stock db p l := by
  obtain ⟨db', hres, hmov, hstk⟩ :=
    crear_ajuste_shape hn (not_lt.mpr h0) hp hl hprod hlug
  refine ⟨db', _, hres, hmov, rfl, ?_, ?_, ?_, ?_⟩
  · show ((n - get_stock db p l).natAbs : Int) = 0
    omega
  · show (if n - get_stock db p l < 0 then some l else none) = none
    rw [if_neg (by omega)]
  · show (if n - get_stock db p l > 0 then some l else none) = none
    rw [if_neg (by omega)]
  · rw [hstk, heq]

theorem C10_witness :
    ∃ db' mov,
      crear_ajuste dbBase
          { id_producto := some 1, lugar_id := some 1, cantidad_nueva := some 50 }
          7 1 = (.ok dbBase.next_movimiento_id, db') ∧
      db'.movimientos = dbBase.movimientos ++ [mov] ∧ mov.tipo = .ajuste ∧
      mov.cantidad = 0 ∧ mov.lugar_origen = none ∧ mov.lugar_destino = none ∧
      get_stock db' 1 1 = get_stock dbBase 1 1 :=
  C10_adjustment_zero_delta dbBase
    { id_producto := some 1, lugar_id := some 1, cantidad_nueva := some 50 }
    7 1 1 1 50 { id := 1, nombre := "Agua" }
    { id := 1, localidad := 1, nombre := "Deposito A" } "Viedma"
    rfl (by decide) (by decide) rfl rfl rfl rfl

/-! ## Claim C4: shipment creation -/

theorem localidad_get_by_id_find? {db : DB} {ld : Int} {locrow : LocalidadRow}
    (h : localidad_get_by_id db ld = some locrow) :
    db.localidades.find? (fun x => x.id == ld) = some locrow := h

theorem lugar_get_by_id_localidad {db : DB} {l : Int} {lug : LugarRow} {nom : String}
    (h : lugar_get_by_id db l = some (lug, nom)) :
    (db.localidades.find? (fun x => x.id == lug.localidad)).isSome := by
  unfold lugar_get_by_id at h
  cases hf : db.lugares.find? (fun x => x.id == l) with
  | none => simp [hf] at h
  | some lg =>
    simp only [hf] at h
    cases hloc : db.localidades.find? (fun x => x.id == lg.localidad) with
    | none => simp [hloc] at h
    | some loc =>
      simp only [hloc, Option.some.injEq, Prod.mk.injEq] at h
      rw [← h.1, hloc]
      rfl

theorem crear_envio_ok {db : DB} {data : EnvioData} {u p c ld lo : Int}
    {prod : ProductoRow} {lug : LugarRow} {nomloc : String} {locrow : LocalidadRow}
    (hvp : data.id_producto = some p) (hp0 : ¬ p = 0)
    (hvc : data.cantidad = some c) (hc0 : 0 < c)
    (hvd : data.localidad_destino = some ld) (hld0 : ¬ ld = 0)
    (hvo : data.lugar_origen = some lo) (hlo0 : ¬ lo = 0)
    (hprod : producto_get_by_id db p = some prod)
    (hlug : lugar_get_by_id db lo = some (lug, nomloc))
    (hloc : localidad_get_by_id db ld = some locrow)
    (hne : ¬ lug.localidad = ld)
    (hstock : ¬ get_stock db p lo < c) :
    crear_envio db data u =
      (.ok db.next_envio_id,
       { db with
         envios := db.envios ++
           [{ id := db.next_envio_id, producto := p, cantidad := c,
              usuario_envia := u, usuario_recibe := none,
              localidad_origen := lug.localidad, localidad_destino := ld,
              lugar_origen := lo, lugar_destino := data.lugar_destino,
              estado := .enviado, motivo := data.motivo.getD "",
              observaciones_envio := data.observaciones_envio.getD "",
              observaciones_recepcion := "", observaciones_cancelacion := "" }],
         stock := updateCantidad p lo (· - c) db.stock,
         auditoria := db.auditoria ++
           [{ entidad := "Envio", id_entidad := db.next_envio_id, accion := "envio",
              descripcion := "Envío de " ++ toString c ++ " unidades de " ++
                prod.nombre ++ " desde " ++ lug.nombre ++ " (" ++ nomloc ++
                ") hacia " ++ locrow.nombre,
              id_usuario := u }],
         next_envio_id := db.next_envio_id + 1 }) := by
  have hc0' : ¬ c = 0 := by omega
  have hcle : ¬ c ≤ 0 := by omega
  have hval : validate_envio_data data = .ok () := by
    unfold validate_envio_data truthyInt
    rw [hvp, hvc, hvd, hvo]
    simp [hp0, hld0, hlo0, hc0', hcle]
  unfold crear_envio
  rw [hval]
  simp only [hvp, hprod, hvo, hlug, hvd, hloc, hvc]
  rw [if_neg (by simpa using hne)]
  rw [if_neg hstock]
  simp only [envio_create, restar_stock, get_stock, auditoria_create]
  rw [if_neg (by simpa [get_stock] using hstock)]

/-- C4: with the product, origin place and destination location all existing,
origin and destination locations different and origin stock at least the
requested (positive) quantity, shipment creation succeeds, the created
shipment row is in state `enviado`, and the origin place's quantity drops by
exactly the shipment quantity; with the same context but origin stock below
the requested quantity, the call fails with the insufficient-stock error and
the database — in particular the shipment table — is unchanged. -/
theorem C4_shipment_create (db : DB) (data : EnvioData) (u p c ld lo : Int)
    (prod : ProductoRow) (lug : LugarRow) (nomloc : String) (locrow : LocalidadRow)
    (hvp : data.id_producto = some p) (hp0 : ¬ p = 0)
    (hvc : data.cantidad = some c) (hc0 : 0 < c)
    (hvd : data.localidad_destino = some ld) (hld0 : ¬ ld = 0)
    (hvo : data.lugar_origen = some lo) (hlo0 : ¬ lo = 0)
    (hprod : producto_get_by_id db p = some prod)
    (hlug : lugar_get_by_id db lo = some (lug, nomloc))
    (hloc : localidad_get_by_id db ld = some locrow)
    (hne : ¬ lug.localidad = ld) :
    (¬ get_stock db p lo < c →
      ∃ db' e, crear_envio db data u = (.ok db.next_envio_id, db') ∧
        db'.envios = db.envios ++ [e] ∧ e.estado = .enviado ∧
        e.producto = p ∧ e.cantidad = c ∧ e.lugar_origen = lo ∧
        get_stock db' p lo = get_stock db p lo - c) ∧
    (get_stock db p lo < c →
      crear_envio db data u =
        (.error ("Stock insuficiente. Disponible: " ++ toString (get_stock db p lo) ++
                 ", Solicitado: " ++ toString c), db)) := by
  constructor
  · intro hstock
    rw [crear_envio_ok hvp hp0 hvc hc0 hvd hld0 hvo hlo0 hprod hlug hloc hne hstock]
    refine ⟨_, _, rfl, rfl, rfl, rfl, rfl, rfl, ?_⟩
    cases hf : db.stock.find? (stockKey p lo) with
    | none =>
      exfalso
      have : get_stock db p lo = 0 := by simp [get_stock, stock_lookup, hf]
      omega
    | some r =>
      have h1 : get_stock db p lo = r.cantidad := by
        simp [get_stock, stock_lookup, hf]
      show stock_lookup (updateCantidad p lo (· - c) db.stock) p lo =
        get_stock db p lo - c
      rw [stock_lookup_updateCantidad_self hf, h1]
  · intro hstock
    have hc0' : ¬ c = 0 := by omega
    have hcle : ¬ c ≤ 0 := by omega
    have hval : validate_envio_data data = .ok () := by
      unfold validate_envio_data truthyInt
      rw [hvp, hvc, hvd, hvo]
      simp [hp0, hld0, hlo0, hc0', hcle]
    unfold crear_envio
    rw [hval]
    simp only [hvp, hprod, hvo, hlug, hvd, hloc, hvc]
    rw [if_neg (by simpa using hne)]
    rw [if_pos hstock]

theorem C4_witness :
    ∃ db' e, crear_envio dbBase envDataBase 7 = (.ok dbBase.next_envio_id, db') ∧
      db'.envios = dbBase.envios ++ [e] ∧ e.estado = .enviado ∧
      e.producto = 1 ∧ e.cantidad = 30 ∧ e.lugar_origen = 1 ∧
      get_stock db' 1 1 = get_stock dbBase 1 1 - 30 :=
  (C4_shipment_create dbBase envDataBase 7 1 30 2 1
    { id := 1, nombre := "Agua" } { id := 1, localidad := 1, nombre := "Deposito A" }
    "Viedma" { id := 2, nombre := "Roca" }
    rfl (by decide) rfl (by decide) rfl (by decide) rfl (by decide)
    rfl rfl rfl (by decide)).1 (by decide)

/-! ## Claim C3: shipment round trips -/

theorem find?_append_fresh {l : List Envio} {id : Int} {e : Envio}
    (hfresh : ∀ x ∈ l, ¬ x.id = id) (he : e.id = id) :
    (l ++ [e]).find? (fun x => x.id == id) = some e := by
  rw [List.find?_append]
  have h1 : l.find? (fun x => x.id == id) = none :=
    List.find?_eq_none.mpr (fun x hx => by simp [hfresh x hx])
  rw [h1]
  simp [List.find?, he]

theorem envio_get_by_id_eq {db : DB} {id : Int} {e : Envio} {prod : ProductoRow}
    (hf : db.envios.find? (fun x => x.id == id) = some e)
    (hp : producto_get_by_id db e.producto = some prod)
    (hu : db.usuarios.contains e.usuario_envia = true)
    (hl1 : (db.localidades.find? (fun x => x.id == e.localidad_origen)).isSome = true)
    (hl2 : (db.localidades.find? (fun x => x.id == e.localidad_destino)).isSome = true)
    (hl3 : (db.lugares.find? (fun x => x.id == e.lugar_origen)).isSome = true) :
    envio_get_by_id db id = some (e, prod.nombre) := by
  unfold envio_get_by_id
  rw [hf]
  simp [hp, hl1, hl2, hl3]
  simpa using hu

theorem cancelar_envio_enviado {db : DB} {id u2 : Int} {obs : String}
    {e : Envio} {pn : String} {r : StockRow}
    (hq : envio_get_by_id db id = some (e, pn))
    (h1 : ¬ e.estado = .cancelado) (h2 : ¬ e.estado = .recibido)
    (hr : db.stock.find? (stockKey e.producto e.lugar_origen) = some r) :
    cancelar_envio db id u2 obs =
      (.ok true,
       { db with
         envios := db.envios.map fun x =>
           if x.id == id && !(x.estado == .recibido)
           then { x with estado := .cancelado, observaciones_cancelacion := obs }
           else x,
         stock := updateCantidad e.producto e.lugar_origen (· + e.cantidad) db.stock,
         auditoria := db.auditoria ++
           [{ entidad := "Envio", id_entidad := id, accion := "cancelacion",
              descripcion := "Cancelación de envío de " ++ toString e.cantidad ++
                " unidades de " ++ pn ++ ". Motivo: " ++ obs,
              id_usuario := u2 }] }) := by
  have hs : (envio_cancelar db id obs).1 = true :=
    envio_cancelar_success (envio_get_by_id_find? hq) h2 obs
  unfold cancelar_envio
  simp only [hq]
  rw [if_neg (by simpa using h1), if_neg (by simpa using h2)]
  simp only [envio_cancelar] at hs ⊢
  rw [hs]
  simp only [if_true]
  rw [sumar_stock_eq_found
    (show (({ db with envios := db.envios.map fun x =>
        if x.id == id && !(x.estado == .recibido)
        then { x with estado := .cancelado, observaciones_cancelacion := obs }
        else x } : DB)).stock.find?
      (stockKey e.producto e.lugar_origen) = some r from hr)]
  simp only [auditoria_create]

theorem recibir_envio_enviado_found {db : DB} {id u2 ldp : Int} {obs : String}
    {e : Envio} {pn : String} {lugd : LugarRow} {nomd : String} {rd : StockRow}
    (hq : envio_get_by_id db id = some (e, pn))
    (h1 : ¬ e.estado = .recibido) (h2 : ¬ e.estado = .cancelado)
    (hlugd : lugar_get_by_id db ldp = some (lugd, nomd))
    (hbelong : lugd.localidad = e.localidad_destino)
    (hrd : db.stock.find? (stockKey e.producto ldp) = some rd) :
    recibir_envio db id u2 ldp obs =
      (.ok true,
       { db with
         envios := db.envios.map fun x =>
           if x.id == id && (x.estado == .enviado || x.estado == .en_transito)
           then { x with estado := .recibido,
                         usuario_recibe := some u2,
                         lugar_destino := some ldp,
                         observaciones_recepcion := obs }
           else x,
         stock := updateCantidad e.producto ldp (· + e.cantidad) db.stock,
         auditoria := db.auditoria ++
           [{ entidad := "Envio", id_entidad := id, accion := "recepcion",
              descripcion := "Recepción de " ++ toString e.cantidad ++
                " unidades de " ++ pn ++ " en " ++ lugd.nombre,
              id_usuario := u2 }] }) := by
  have hs : (marcar_recibido db id u2 ldp obs).1 = true :=
    marcar_recibido_success (envio_get_by_id_find? hq) h1 h2 u2 ldp obs
  unfold recibir_envio
  simp only [hq]
  rw [if_neg (by simpa using h1), if_neg (by simpa using h2)]
  simp only [hlugd]
  rw [if_neg (by simp [hbelong])]
  simp only [marcar_recibido] at hs ⊢
  rw [hs]
  simp only [if_true]
  rw [sumar_stock_eq_found
    (show (({ db with envios := db.envios.map fun x =>
        if x.id == id && (x.estado == .enviado || x.estado == .en_transito)
        then { x with estado := .recibido,
                      usuario_recibe := some u2,
                      lugar_destino := some ldp,
                      observaciones_recepcion := obs }
        else x } : DB)).stock.find? (stockKey e.producto ldp) = some rd from hrd)]
  simp only [auditoria_create]

theorem recibir_envio_enviado_insert {db : DB} {id u2 ldp : Int} {obs : String}
    {e : Envio} {pn : String} {lugd : LugarRow} {nomd : String}
    (hq : envio_get_by_id db id = some (e, pn))
    (h1 : ¬ e.estado = .recibido) (h2 : ¬ e.estado = .cancelado)
    (hlugd : lugar_get_by_id db ldp = some (lugd, nomd))
    (hbelong : lugd.localidad = e.localidad_destino)
    (hrd : db.stock.find? (stockKey e.producto ldp) = none) :
    recibir_envio db id u2 ldp obs =
      (.ok true,
       { db with
         envios := db.envios.map fun x =>
           if x.id == id && (x.estado == .enviado || x.estado == .en_transito)
           then { x with estado := .recibido,
                         usuario_recibe := some u2,
                         lugar_destino := some ldp,
                         observaciones_recepcion := obs }
           else x,
         stock := db.stock ++
           [{ producto := e.producto, localidad := lugd.localidad,
              lugar := ldp, cantidad := e.cantidad }],
         auditoria := db.auditoria ++
           [{ entidad := "Envio", id_entidad := id, accion := "recepcion",
              descripcion := "Recepción de " ++ toString e.cantidad ++
                " unidades de " ++ pn ++ " en " ++ lugd.nombre,
              id_usuario := u2 }] }) := by
  have hs : (marcar_recibido db id u2 ldp obs).1 = true :=
    marcar_recibido_success (envio_get_by_id_find? hq) h1 h2 u2 ldp obs
  have hlf := lugar_get_by_id_find? hlugd
  unfold recibir_envio
  simp only [hq]
  rw [if_neg (by simpa using h1), if_neg (by simpa using h2)]
  simp only [hlugd]
  rw [if_neg (by simp [hbelong])]
  simp only [marcar_recibido] at hs ⊢
  rw [hs]
  simp only [if_true]
  rw [sumar_stock_eq_insert
    (show (({ db with envios := db.envios.map fun x =>
        if x.id == id && (x.estado == .enviado || x.estado == .en_transito)
        then { x with estado := .recibido,
                      usuario_recibe := some u2,
                      lugar_destino := some ldp,
                      observaciones_recepcion := obs }
        else x } : DB)).stock.find? (stockKey e.producto ldp) = none from hrd)
    (show (({ db with envios := db.envios.map fun x =>
        if x.id == id && (x.estado == .enviado || x.estado == .en_transito)
        then { x with estado := .recibido,
                      usuario_recibe := some u2,
                      lugar_destino := some ldp,
                      observaciones_recepcion := obs }
        else x } : DB)).lugares.find? (fun x => x.id == ldp) = some lugd from hlf)]
  simp only [auditoria_create]

/-- C3: for a shipment created with sufficient origin stock (and a
well-formed database: fresh auto-increment id, sender present in the user
table), create followed by cancel restores every ledger quantity to its value
before the create; create followed by receive (at a place of the destination
location) moves exactly the shipment quantity from the origin place to the
receiving place, leaving their sum unchanged. -/
theorem C3_shipment_roundtrip (db : DB) (data : EnvioData)
    (u u2 p c ld lo : Int) (obs : String)
    (prod : ProductoRow) (lug : LugarRow) (nomloc : String) (locrow : LocalidadRow)
    (hvp : data.id_producto = some p) (hp0 : ¬ p = 0)
    (hvc : data.cantidad = some c) (hc0 : 0 < c)
    (hvd : data.localidad_destino = some ld) (hld0 : ¬ ld = 0)
    (hvo : data.lugar_origen = some lo) (hlo0 : ¬ lo = 0)
    (hprod : producto_get_by_id db p = some prod)
    (hlug : lugar_get_by_id db lo = some (lug, nomloc))
    (hloc : localidad_get_by_id db ld = some locrow)
    (hne : ¬ lug.localidad = ld)
    (hstock : ¬ get_stock db p lo < c)
    (husr : db.usuarios.contains u = true)
    (hfresh : ∀ x ∈ db.envios, ¬ x.id = db.next_envio_id) :
    (∃ db2, cancelar_envio (crear_envio db data u).2 db.next_envio_id u2 obs
        = (.ok true, db2) ∧
      ∀ p' l', get_stock db2 p' l' = get_stock db p' l') ∧
    (∀ ldp lugd nomd, lugar_get_by_id db ldp = some (lugd, nomd) →
      lugd.localidad = ld →
      ∃ db2, recibir_envio (crear_envio db data u).2 db.next_envio_id u2 ldp obs
          = (.ok true, db2) ∧
        get_stock db2 p lo = get_stock db p lo - c ∧
        get_stock db2 p ldp = get_stock db p ldp + c ∧
        get_stock db2 p lo + get_stock db2 p ldp
          = get_stock db p lo + get_stock db p ldp) := by
  have hcreate :=
    crear_envio_ok (u := u) hvp hp0 hvc hc0 hvd hld0 hvo hlo0 hprod hlug hloc hne hstock
  obtain ⟨r0, hr0⟩ : ∃ r0, db.stock.find? (stockKey p lo) = some r0 := by
    cases hf : db.stock.find? (stockKey p lo) with
    | some r => exact ⟨r, rfl⟩
    | none =>
      exfalso
      have h0 : get_stock db p lo = 0 := by simp [get_stock, stock_lookup, hf]
      omega
  have hkey0 : stockKey p lo r0 = true := List.find?_some hr0
  have hf1 : (updateCantidad p lo (fun x => x - c) db.stock).find? (stockKey p lo)
      = some { r0 with cantidad := r0.cantidad - c } := by
    rw [find?_updateCantidad, hr0]
    simp [hkey0]
  have hlookup0 : stock_lookup db.stock p lo = r0.cantidad := by
    simp [stock_lookup, hr0]
  have hl2iss : (db.localidades.find? (fun x => x.id == ld)).isSome = true := by
    rw [show db.localidades.find? (fun x => x.id == ld) = some locrow from hloc]
    rfl
  have hl3iss : (db.lugares.find? (fun x => x.id == lo)).isSome = true := by
    rw [lugar_get_by_id_find? hlug]
    rfl
  constructor
  · rw [hcreate]
    refine ⟨_, cancelar_envio_enviado (r := { r0 with cantidad := r0.cantidad - c })
        (envio_get_by_id_eq (find?_append_fresh hfresh rfl) hprod husr
          (lugar_get_by_id_localidad hlug) hl2iss hl3iss)
        (fun hx => Estado.noConfusion hx) (fun hx => Estado.noConfusion hx) hf1, ?_⟩
    intro p' l'
    show stock_lookup (updateCantidad p lo (fun x => x + c)
        (updateCantidad p lo (fun x => x - c) db.stock)) p' l'
      = stock_lookup db.stock p' l'
    by_cases hk : p' = p ∧ l' = lo
    · obtain ⟨rfl, rfl⟩ := hk
      rw [stock_lookup_updateCantidad_self hf1, hlookup0]
      show r0.cantidad - c + c = r0.cantidad
      omega
    · rw [stock_lookup_updateCantidad_other hk, stock_lookup_updateCantidad_other hk]
  · intro ldp lugd nomd hlugd hbelong
    have hldplo : ¬ ldp = lo := by
      intro hx
      subst hx
      have hsame := hlug.symm.trans hlugd
      simp only [Option.some.injEq, Prod.mk.injEq] at hsame
      rw [← hsame.1] at hbelong
      exact hne hbelong
    rw [hcreate]
    cases hrd : db.stock.find? (stockKey p ldp) with
    | some rd =>
      have hkrd := stockKey_iff.mp (List.find?_some hrd)
      have hnokey : stockKey p lo rd = false := by
        rcases hb : stockKey p lo rd with _ | _
        · rfl
        · exfalso
          exact hldplo (hkrd.2.symm.trans (stockKey_iff.mp hb).2)
      have hrd1 : (updateCantidad p lo (fun x => x - c) db.stock).find?
          (stockKey p ldp) = some rd := by
        rw [find?_updateCantidad, hrd]
        simp [hnokey]
      have hlookupd : stock_lookup db.stock p ldp = rd.cantidad := by
        simp [stock_lookup, hrd]
      refine ⟨_, recibir_envio_enviado_found
          (envio_get_by_id_eq (find?_append_fresh hfresh rfl) hprod husr
            (lugar_get_by_id_localidad hlug) hl2iss hl3iss)
          (fun hx => Estado.noConfusion hx) (fun hx => Estado.noConfusion hx)
          hlugd hbelong hrd1, ?_, ?_, ?_⟩
      · show stock_lookup (updateCantidad p ldp (fun x => x + c)
            (updateCantidad p lo (fun x => x - c) db.stock)) p lo
          = stock_lookup db.stock p lo - c
        rw [stock_lookup_updateCantidad_other (by tauto),
          stock_lookup_updateCantidad_self hr0, hlookup0]
      · show stock_lookup (updateCantidad p ldp (fun x => x + c)
            (updateCantidad p lo (fun x => x - c) db.stock)) p ldp
          = stock_lookup db.stock p ldp + c
        rw [stock_lookup_updateCantidad_self hrd1, hlookupd]
      · show stock_lookup (updateCantidad p ldp (fun x => x + c)
              (updateCantidad p lo (fun x => x - c) db.stock)) p lo +
            stock_lookup (updateCantidad p ldp (fun x => x + c)
              (updateCantidad p lo (fun x => x - c) db.stock)) p ldp
          = stock_lookup db.stock p lo + stock_lookup db.stock p ldp
        rw [stock_lookup_updateCantidad_other (by tauto),
          stock_lookup_updateCantidad_self hr0,
          stock_lookup_updateCantidad_self hrd1, hlookup0, hlookupd]
        show r0.cantidad - c + (rd.cantidad + c) = r0.cantidad + rd.cantidad
        omega
    | none =>
      have hrd1 : (updateCantidad p lo (fun x => x - c) db.stock).find?
          (stockKey p ldp) = none := by
        rw [find?_updateCantidad, hrd]
        rfl
      have hlookupd : stock_lookup db.stock p ldp = 0 := by
        simp [stock_lookup, hrd]
      have hkeynew : stockKey p ldp
          { producto := p, localidad := lugd.localidad,
            lugar := ldp, cantidad := c } = true := by
        simp [stockKey]
      refine ⟨_, recibir_envio_enviado_insert
          (envio_get_by_id_eq (find?_append_fresh hfresh rfl) hprod husr
            (lugar_get_by_id_localidad hlug) hl2iss hl3iss)
          (fun hx => Estado.noConfusion hx) (fun hx => Estado.noConfusion hx)
          hlugd hbelong hrd1, ?_, ?_, ?_⟩
      · show stock_lookup (updateCantidad p lo (fun x => x - c) db.stock ++
            [{ producto := p, localidad := lugd.localidad,
               lugar := ldp, cantidad := c }]) p lo
          = stock_lookup db.stock p lo - c
        rw [stock_lookup_append, hf1, hlookup0]
      · show stock_lookup (updateCantidad p lo (fun x => x - c) db.stock ++
            [{ producto := p, localidad := lugd.localidad,
               lugar := ldp, cantidad := c }]) p ldp
          = stock_lookup db.stock p ldp + c
        rw [stock_lookup_append, hrd1, hlookupd]
        simp [hkeynew]
      · show stock_lookup (updateCantidad p lo (fun x => x - c) db.stock ++
              [{ producto := p, localidad := lugd.localidad,
                 lugar := ldp, cantidad := c }]) p lo +
            stock_lookup (updateCantidad p lo (fun x => x - c) db.stock ++
              [{ producto := p, localidad := lugd.localidad,
                 lugar := ldp, cantidad := c }]) p ldp
          = stock_lookup db.stock p lo + stock_lookup db.stock p ldp
        rw [stock_lookup_append, stock_lookup_append, hf1, hrd1, hlookup0, hlookupd]
        simp only [hkeynew, if_true]
        show r0.cantidad - c + c = r0.cantidad + 0
        omega

theorem C3_witness :
    (∃ db2, cancelar_envio (crear_envio dbBase envDataBase 7).2
        dbBase.next_envio_id 8 "nv" = (.ok true, db2) ∧
      ∀ p' l', get_stock db2 p' l' = get_stock dbBase p' l') ∧
    (∀ ldp lugd nomd, lugar_get_by_id dbBase ldp = some (lugd, nomd) →
      lugd.localidad = 2 →
      ∃ db2, recibir_envio (crear_envio dbBase envDataBase 7).2
          dbBase.next_envio_id 8 ldp "nv" = (.ok true, db2) ∧
        get_stock db2 1 1 = get_stock dbBase 1 1 - 30 ∧
        get_stock db2 1 ldp = get_stock dbBase 1 ldp + 30 ∧
        get_stock db2 1 1 + get_stock db2 1 ldp
          = get_stock dbBase 1 1 + get_stock dbBase 1 ldp) :=
  C3_shipment_roundtrip dbBase envDataBase 7 8 1 30 2 1 "nv"
    { id := 1, nombre := "Agua" } { id := 1, localidad := 1, nombre := "Deposito A" }
    "Viedma" { id := 2, nombre := "Roca" }
    rfl (by decide) rfl (by decide) rfl (by decide) rfl (by decide)
    rfl rfl rfl (by decide) (by decide) (by decide) (by decide)

end Explotacion
